import Mathlib

/-!
Verification of the spreadsheet-backed authentication backend
(`src/gas-backend/Code.gs`).

Embedding conventions:
* A spreadsheet sheet is a `List` of rows; index 0 is the header row,
  exactly as `getDataRange().getValues()` returns it, and every loop in
  the source starts at index 1.  `deleteRow(i + 1)` on the sheet removes
  list index `i` (sheet rows are 1-based).
* Time is `Nat`, milliseconds since the epoch.  A date cell is either a
  parsed time or an invalid date (`new Date("Expires At")` is `NaN`, and
  every `<` comparison against `NaN` is `false`).
* The "User Data" cell holds either a serialized user object (written by
  `storeSession` via `JSON.stringify`, read back by `JSON.parse`) or
  arbitrary text such as the header caption; parsing text that is not a
  serialized user throws, which surfaces as the catch-all error response.
* `Utilities.getUuid()` and the clock are effects; they enter the model
  as explicit parameters (`tokenUuid`, `fallbackUuid`, `now`).
* The sessions sheet may not exist yet (`getSheetByName` returns null),
  hence `Option (List SRow)`.  The users sheet is taken as existing
  state; the bootstrap that creates it with default users is out of
  scope of the claims, which quantify over a given user table.
-/

namespace GasAuth

/-- `SESSION_TIMEOUT`: 24 hours in milliseconds. -/
def SESSION_TIMEOUT : Nat := 24 * 60 * 60 * 1000

/-- A date-valued cell: a parsed timestamp, or an invalid date (NaN). -/
inductive DateCell where
  | time (t : Nat) : DateCell
  | invalid : DateCell
deriving DecidableEq, Repr

/-- JS `dateCell < now`: `false` whenever the date is invalid (NaN). -/
def dateLt (c : DateCell) (now : Nat) : Bool :=
  match c with
  | .time t => decide (t < now)
  | .invalid => false

/-- The user object synthesized by `handleLogin` and stored in sessions. -/
structure User where
  id : String
  username : String
  email : String
  role : String
  chapterId : Option String
deriving DecidableEq, Repr

/-- The "User Data" cell: a serialized user object, or plain text
(e.g. the header caption), on which `JSON.parse` would throw. -/
inductive UserDataCell where
  | user (u : User) : UserDataCell
  | text (s : String) : UserDataCell
deriving DecidableEq, Repr

/-- A row of the Users sheet: columns Username, Password, Email, Role,
User ID, Chapter ID, all plain cells. -/
structure URow where
  username : String
  password : String
  email : String
  role : String
  userId : String
  chapterId : String
deriving DecidableEq, Repr

/-- A row of the Sessions sheet: columns Session Token, User Data,
Created At, Expires At. -/
structure SRow where
  token : String
  userData : UserDataCell
  createdAt : DateCell
  expiresAt : DateCell
deriving DecidableEq, Repr

/-- The header row appended when the Sessions sheet is created. -/
def sessionsHeader : SRow :=
  { token := "Session Token", userData := .text "User Data",
    createdAt := .invalid, expiresAt := .invalid }

/-- The two tables the backend reads and writes. -/
structure AuthState where
  users : List URow
  sessions : Option (List SRow)
deriving DecidableEq, Repr

/-- The uniform response envelope built by `createResponse`:
`success` and `message` always, plus the optional extras that
`Object.assign` can merge in (`user`, `sessionToken`). -/
structure Response where
  success : Bool
  message : String
  user : Option User
  sessionToken : Option String
deriving DecidableEq, Repr

/-- The optional third argument of `createResponse`. -/
structure RespData where
  user : Option User
  sessionToken : Option String
deriving DecidableEq, Repr

/-- `createResponse(success, message, data)`: build the envelope and
merge the extra fields when `data` is present. -/
def createResponse (success : Bool) (message : String)
    (data : Option RespData) : Response :=
  match data with
  | none => { success := success, message := message,
              user := none, sessionToken := none }
  | some d => { success := success, message := message,
                user := d.user, sessionToken := d.sessionToken }

/-- `generateSessionToken()`: `Utilities.getUuid() + "_" + Date.now()`. -/
def generateSessionToken (tokenUuid : String) (now : Nat) : String :=
  tokenUuid ++ "_" ++ toString now

/-- The user object built from a matching user row:
`row[4] || Utilities.getUuid()` falls back to a fresh uuid when the
stored id cell is empty, and `row[5] || null` maps an empty chapter
cell to null. -/
def mkUser (fallbackUuid : String) (row : URow) : User :=
  { id := if row.userId = "" then fallbackUuid else row.userId,
    username := row.username,
    email := row.email,
    role := row.role,
    chapterId := if row.chapterId = "" then none else some row.chapterId }

/-- The row appended by `storeSession`: token, serialized user,
`now.toISOString()`, `(now + SESSION_TIMEOUT).toISOString()`. -/
def newSessionRow (now : Nat) (tok : String) (u : User) : SRow :=
  { token := tok, userData := .user u,
    createdAt := .time now, expiresAt := .time (now + SESSION_TIMEOUT) }

/-- The reverse loop of `cleanupExpiredSessions`: `snapshot` is the
`getValues()` array taken once before the loop, `i` the loop counter
running from `snapshot.length - 1` down to `1`, `cur` the live sheet
being mutated by `deleteRow(i + 1)`.  Deleting bottom-up keeps every
index `≤ i` of the live sheet aligned with the snapshot. -/
def cleanupGo (now : Nat) (snapshot : List SRow) :
    Nat → List SRow → List SRow
  | 0, cur => cur
  | i + 1, cur =>
      cleanupGo now snapshot i
        (match snapshot[i + 1]? with
         | some r => if dateLt r.expiresAt now then cur.eraseIdx (i + 1) else cur
         | none => cur)

/-- `cleanupExpiredSessions()`: scan the snapshot from the last row down
to row index 1, deleting every row whose expiry has passed. -/
def cleanupExpiredSessions (now : Nat) (sheet : List SRow) : List SRow :=
  cleanupGo now sheet (sheet.length - 1) sheet

/-- `storeSession(sessionToken, user)`: create the sheet (header only)
if absent, append the new session row, then run the cleanup sweep. -/
def storeSession (now : Nat) (tok : String) (u : User)
    (sessions : Option (List SRow)) : List SRow :=
  let sheet :=
    match sessions with
    | none => [sessionsHeader]
    | some rows => rows
  cleanupExpiredSessions now (sheet ++ [newSessionRow now tok u])

/-- The row-match test of `handleLogin`:
`row[0] === username && row[1] === password`.  The request fields may be
`undefined` (`none`), in which case no string cell matches. -/
def loginMatches (username password : Option String) (row : URow) : Bool :=
  (some row.username == username) && (some row.password == password)

/-- The scan of `handleLogin` over the users sheet, starting at index 1
(skipping the header row): first matching row wins. -/
def findMatch (username password : Option String)
    (rows : List URow) : Option URow :=
  (rows.drop 1).find? (loginMatches username password)

/-- `handleLogin(username, password)`: scan the user table, and on the
first exact match create a session and return user and token; otherwise
return the generic failure. -/
def handleLogin (tokenUuid fallbackUuid : String) (now : Nat)
    (username password : Option String) (st : AuthState) :
    Response × AuthState :=
  match findMatch username password st.users with
  | some row =>
      let sessionToken := generateSessionToken tokenUuid now
      let user := mkUser fallbackUuid row
      let sessions := storeSession now sessionToken user st.sessions
      (createResponse true "Login successful"
         (some { user := some user, sessionToken := some sessionToken }),
       { st with sessions := some sessions })
  | none =>
      (createResponse false "Invalid username or password" none, st)

/-- The body of the `handleLogout` scan over the data rows: delete the
first row whose token cell matches, then stop (`break`). -/
def deleteFirstTokenGo (tok : Option String) : List SRow → List SRow
  | [] => []
  | r :: rest =>
      if some r.token == tok then rest else r :: deleteFirstTokenGo tok rest

/-- The deletion of `handleLogout`: scan data rows (index 1 onward) for
the first row whose token cell matches, delete it, and stop.  The header
row (index 0) is never examined. -/
def deleteFirstToken (tok : Option String) (rows : List SRow) : List SRow :=
  match rows with
  | [] => []
  | header :: data => header :: deleteFirstTokenGo tok data

/-- `handleLogout(sessionToken)`: delete the first matching session row
if the sheet exists, and report success in every case. -/
def handleLogout (tok : Option String) (st : AuthState) :
    Response × AuthState :=
  let sessions :=
    match st.sessions with
    | none => none
    | some rows => some (deleteFirstToken tok rows)
  (createResponse true "Logged out successfully" none,
   { st with sessions := sessions })

/-- `getSession(sessionToken)`: null if the sheet is absent, else the
first data row whose token cell matches. -/
def getSession (tok : Option String)
    (sessions : Option (List SRow)) : Option SRow :=
  match sessions with
  | none => none
  | some rows => (rows.drop 1).find? (fun r => some r.token == tok)

/-- `isSessionExpired(session)`: `new Date(session.expiresAt) < new Date()`. -/
def isSessionExpired (now : Nat) (s : SRow) : Bool :=
  dateLt s.expiresAt now

/-- `handleValidateSession(sessionToken)`: look up the session; on a
fresh session parse and return the embedded user snapshot (a text cell
makes `JSON.parse` throw, caught as a validation error); otherwise the
generic invalid-or-expired failure. -/
def handleValidateSession (now : Nat) (tok : Option String)
    (st : AuthState) : Response :=
  match getSession tok st.sessions with
  | some session =>
      if isSessionExpired now session then
        createResponse false "Invalid or expired session" none
      else
        match session.userData with
        | .user u =>
            createResponse true "Session valid"
              (some { user := some u, sessionToken := none })
        | .text e =>
            createResponse false ("Validation error: " ++ e) none
  | none => createResponse false "Invalid or expired session" none

/-- The parsed POST body: `action` may be absent, as may the
credential and token fields. -/
structure Request where
  action : Option String
  username : Option String
  password : Option String
  sessionToken : Option String
deriving DecidableEq, Repr

/-- `doPost(e)`: parse the body (a parse failure throws and is caught as
a server error), then `switch (data.action)` over the three operations,
with the default branch returning the invalid-action failure. -/
def doPost (tokenUuid fallbackUuid : String) (now : Nat)
    (body : Except String Request) (st : AuthState) :
    Response × AuthState :=
  match body with
  | .error e => (createResponse false ("Server error: " ++ e) none, st)
  | .ok data =>
      if data.action == some "login" then
        handleLogin tokenUuid fallbackUuid now data.username data.password st
      else if data.action == some "logout" then
        handleLogout data.sessionToken st
      else if data.action == some "validateSession" then
        (handleValidateSession now data.sessionToken st, st)
      else
        (createResponse false "Invalid action" none, st)

/-- The header row created for the Users sheet. -/
def usersHeader : URow :=
  { username := "Username", password := "Password", email := "Email",
    role := "Role", userId := "User ID", chapterId := "Chapter ID" }

/-- A session row survives the cleanup sweep iff its expiry has not
passed (invalid dates compare `false` and survive). -/
def keepRow (now : Nat) (r : SRow) : Bool :=
  ! dateLt r.expiresAt now

/-- The default admin row seeded by `createUsersSheet`, here with a
stored user id, used for concrete evaluations. -/
def adminRow : URow :=
  { username := "admin", password := "admin123",
    email := "admin@dyesabel.org", role := "admin",
    userId := "uid-1", chapterId := "" }

/-- A sample user snapshot for concrete session rows. -/
def demoUser : User :=
  { id := "uid-1", username := "admin", email := "admin@dyesabel.org",
    role := "admin", chapterId := none }

/-- A user snapshot with a different id, for states exercising duplicate
or colliding tokens. -/
def otherUser : User :=
  { id := "other-id", username := "bob", email := "bob@dyesabel.org",
    role := "editor", chapterId := none }

/-- A concrete stored session row expiring at time 5. -/
def demoSessionRow : SRow :=
  { token := "tk", userData := .user demoUser,
    createdAt := .time 0, expiresAt := .time 5 }

/-- A concrete state with one user and one stored session. -/
def demoState : AuthState :=
  { users := [usersHeader, adminRow],
    sessions := some [sessionsHeader, demoSessionRow] }

/-- Invariant of the bottom-up deletion loop: when the live sheet is the
snapshot's first `i + 1` rows followed by an already-processed tail, the
remaining iterations keep row 0 and filter snapshot rows `1..i`. -/
theorem cleanupGo_spec (now : Nat) (sheet : List SRow) :
    ∀ (i : Nat) (rest : List SRow),
      cleanupGo now sheet i (sheet.take (i + 1) ++ rest)
        = sheet.take 1 ++ ((sheet.drop 1).take i).filter (keepRow now) ++ rest := by
  intro i
  induction i with
  | zero => intro rest; simp [cleanupGo]
  | succ i ih =>
    intro rest
    by_cases h : i + 1 < sheet.length
    · have hget : sheet[i + 1]? = some sheet[i + 1] := List.getElem?_eq_getElem h
      have htake : sheet.take (i + 2) = sheet.take (i + 1) ++ [sheet[i + 1]] := by
        rw [List.take_succ, hget]; rfl
      have hdrop : (sheet.drop 1)[i]? = some sheet[i + 1] := by
        rw [List.getElem?_drop]
        have h1 : 1 + i = i + 1 := by omega
        rw [h1, hget]
      have htake2 : (sheet.drop 1).take (i + 1)
          = (sheet.drop 1).take i ++ [sheet[i + 1]] := by
        rw [List.take_succ, hdrop]; rfl
      have hlen : (sheet.take (i + 1)).length = i + 1 := by
        simp [List.length_take]; omega
      simp only [cleanupGo, hget]
      by_cases hexp : dateLt sheet[i + 1].expiresAt now = true
      · have herase :
            ((sheet.take (i + 1) ++ [sheet[i + 1]]) ++ rest).eraseIdx (i + 1)
              = sheet.take (i + 1) ++ rest := by
          rw [List.append_assoc, List.eraseIdx_append_of_length_le (by omega)]
          simp [hlen]
        rw [if_pos hexp, htake, herase, ih rest, htake2, List.filter_append]
        have hkeep : keepRow now sheet[i + 1] = false := by simp [keepRow, hexp]
        simp [hkeep]
      · have hexp2 : dateLt sheet[i + 1].expiresAt now = false := by
          simpa using hexp
        have hkeep : keepRow now sheet[i + 1] = true := by simp [keepRow, hexp2]
        rw [if_neg hexp, htake, List.append_assoc, List.singleton_append]
        rw [ih (sheet[i + 1] :: rest), htake2, List.filter_append]
        simp [hkeep]
    · have hget : sheet[i + 1]? = none := by
        rw [List.getElem?_eq_none]; omega
      have htake : sheet.take (i + 2) = sheet.take (i + 1) := by
        rw [List.take_of_length_le (by omega), List.take_of_length_le (by omega)]
      have htake2 : (sheet.drop 1).take (i + 1) = (sheet.drop 1).take i := by
        have hl : (sheet.drop 1).length ≤ i := by simp [List.length_drop]; omega
        rw [List.take_of_length_le hl, List.take_of_length_le (by omega)]
      simp only [cleanupGo, hget, htake, ih, htake2]

/-- `cleanupExpiredSessions` keeps row 0 (the header slot) untouched and
filters the data rows, deleting exactly the expired ones and preserving
the relative order of the survivors. -/
theorem cleanup_eq_filter (now : Nat) (sheet : List SRow) :
    cleanupExpiredSessions now sheet
      = sheet.take 1 ++ (sheet.drop 1).filter (keepRow now) := by
  cases sheet with
  | nil => simp [cleanupExpiredSessions, cleanupGo]
  | cons a t =>
    have h := cleanupGo_spec now (a :: t) ((a :: t).length - 1) []
    have hlen : (a :: t).length - 1 = t.length := by simp
    have htake : (a :: t).take (((a :: t).length - 1) + 1) = a :: t := by
      rw [List.take_of_length_le]; simp
    rw [htake, List.append_nil] at h
    rw [cleanupExpiredSessions, h, hlen]
    simp [List.take_of_length_le]

/-- First-match characterization of the linear scans: if index `i` holds
a matching element and every earlier index fails the test, the scan
returns that element. -/
theorem find?_eq_of_first {α : Type} (p : α → Bool) :
    ∀ (l : List α) (i : Nat) (x : α),
      l[i]? = some x → p x = true →
      (∀ j y, j < i → l[j]? = some y → p y = false) →
      l.find? p = some x := by
  intro l
  induction l with
  | nil => intro i x hx _ _; simp at hx
  | cons a t ih =>
    intro i x hx hp hfirst
    cases i with
    | zero =>
      simp at hx
      subst hx
      simp [List.find?_cons_of_pos, hp]
    | succ i =>
      have ha : p a = false := hfirst 0 a (Nat.succ_pos i) (by simp)
      have ht : t.find? p = some x := by
        refine ih i x (by simpa using hx) hp ?_
        intro j y hj hy
        exact hfirst (j + 1) y (by omega) (by simpa using hy)
      simp [List.find?_cons_of_neg, ha, ht]

/-- The freshly stored session row is never expired at storage time. -/
theorem keepRow_newSessionRow (now : Nat) (tok : String) (u : User) :
    keepRow now (newSessionRow now tok u) = true := by
  have hlt : ¬ (now + SESSION_TIMEOUT < now) := by omega
  simp [keepRow, dateLt, newSessionRow, hlt]

/-- `storeSession` on an existing sheet: keep the header slot, filter
the data rows, append the new session. -/
theorem storeSession_some_eq (now : Nat) (tok : String) (u : User)
    (rows : List SRow) :
    storeSession now tok u (some rows)
      = rows.take 1 ++ (rows.drop 1).filter (keepRow now)
          ++ [newSessionRow now tok u] := by
  have hkeep := keepRow_newSessionRow now tok u
  show cleanupExpiredSessions now (rows ++ [newSessionRow now tok u]) = _
  rw [cleanup_eq_filter]
  cases rows with
  | nil => simp
  | cons a t => simp [List.filter_append, hkeep]

/-- `storeSession` with no sheet yet: create the header, append the new
session (which the sweep keeps). -/
theorem storeSession_none_eq (now : Nat) (tok : String) (u : User) :
    storeSession now tok u none
      = [sessionsHeader, newSessionRow now tok u] := by
  have hkeep := keepRow_newSessionRow now tok u
  show cleanupExpiredSessions now ([sessionsHeader] ++ [newSessionRow now tok u]) = _
  rw [cleanup_eq_filter]
  simp [hkeep]

/-- C5: at the moment a new session is stored, the triggered cleanup
sweep deletes exactly the rows whose expiry has passed, keeps every
unexpired data row in its original order, and keeps the newly appended
session row, whose expiry has not yet passed. -/
theorem claim_C5_store_purges_expired (now : Nat) (tok : String) (u : User)
    (rows : List SRow) :
    storeSession now tok u (some rows)
      = rows.take 1 ++ (rows.drop 1).filter (keepRow now)
          ++ [newSessionRow now tok u]
    ∧ storeSession now tok u none = [sessionsHeader, newSessionRow now tok u]
    ∧ keepRow now (newSessionRow now tok u) = true
    ∧ (∀ r, keepRow now r = false ↔ dateLt r.expiresAt now = true) :=
  ⟨storeSession_some_eq now tok u rows, storeSession_none_eq now tok u,
   keepRow_newSessionRow now tok u, fun r => by simp [keepRow]⟩

/-- C10: the cleanup sweep never touches row 0 (the header slot, since
the loop stops at data index 1), and the surviving data rows are exactly
the unexpired ones in their original relative order. -/
theorem claim_C10_cleanup_header_and_order (now : Nat) (rows : List SRow) :
    (cleanupExpiredSessions now rows).take 1 = rows.take 1
    ∧ (cleanupExpiredSessions now rows).drop 1
        = (rows.drop 1).filter (keepRow now)
    ∧ List.Sublist ((cleanupExpiredSessions now rows).drop 1) (rows.drop 1)
    ∧ (rows ≠ [] → (cleanupExpiredSessions now rows).head? = rows.head?) := by
  rw [cleanup_eq_filter]
  cases rows with
  | nil => simp
  | cons a t =>
    refine ⟨by simp, by simp, by simp [List.filter_sublist], fun _ => by simp⟩

/-- Witness for C10 at a concrete sheet. -/
theorem claim_C10_witness :
    ([sessionsHeader] : List SRow) ≠ []
    ∧ (cleanupExpiredSessions 5 [sessionsHeader]).head?
        = ([sessionsHeader] : List SRow).head? :=
  ⟨by decide,
   (claim_C10_cleanup_header_and_order 5 [sessionsHeader]).2.2.2 (by decide)⟩

/-- C7: the TTL constant is 24 hours in milliseconds; the row stored on
login carries creation time `now` and expiry `now + SESSION_TIMEOUT`;
storing appends exactly that one row besides purging expired ones; and a
`validateSession` request never changes the stored tables. -/
theorem claim_C7_ttl_fixed (now : Nat) (tok : String) (u : User)
    (rows : List SRow) :
    SESSION_TIMEOUT = 86400000
    ∧ (newSessionRow now tok u).createdAt = DateCell.time now
    ∧ (newSessionRow now tok u).expiresAt = DateCell.time (now + SESSION_TIMEOUT)
    ∧ storeSession now tok u (some rows)
        = rows.take 1 ++ (rows.drop 1).filter (keepRow now)
          ++ [newSessionRow now tok u]
    ∧ (∀ (tu fu : String) (n2 : Nat) (req : Request) (st : AuthState),
        req.action = some "validateSession" →
        (doPost tu fu n2 (Except.ok req) st).2 = st) := by
  refine ⟨rfl, rfl, rfl, storeSession_some_eq now tok u rows, ?_⟩
  intro tu fu n2 req st hreq
  cases req with
  | mk action username password sessionToken =>
    simp only at hreq
    subst hreq
    rfl

/-- Witness for C7 at a concrete request and state. -/
theorem claim_C7_witness :
    (doPost "t" "f" 3
        (Except.ok { action := some "validateSession", username := none,
                     password := none, sessionToken := some "x" })
        { users := [usersHeader], sessions := none }).2
      = { users := [usersHeader], sessions := none } :=
  (claim_C7_ttl_fixed 0 "x" demoUser []).2.2.2.2 "t" "f" 3
    { action := some "validateSession", username := none,
      password := none, sessionToken := some "x" }
    { users := [usersHeader], sessions := none } rfl

/-- No data row passes the login test: the scan returns nothing. -/
theorem findMatch_eq_none (u p : String) (rows : List URow)
    (h : ∀ r ∈ rows.drop 1, ¬ (r.username = u ∧ r.password = p)) :
    findMatch (some u) (some p) rows = none := by
  rw [findMatch, List.find?_eq_none]
  intro x hx
  simpa [loginMatches] using h x hx

/-- C9: a login attempt that matches no user row returns the generic
failure and leaves the whole state, in particular the session table,
unchanged. -/
theorem claim_C9_failed_login_no_side_effect
    (tu fu : String) (now : Nat) (u p : String) (st : AuthState)
    (h : ∀ r ∈ st.users.drop 1, ¬ (r.username = u ∧ r.password = p)) :
    handleLogin tu fu now (some u) (some p) st
      = (createResponse false "Invalid username or password" none, st) := by
  have hfind := findMatch_eq_none u p st.users h
  simp [handleLogin, hfind]

/-- Witness for C9 at a concrete state. -/
theorem claim_C9_witness :
    handleLogin "t" "f" 0 (some "nobody") (some "pw")
        { users := [usersHeader, adminRow], sessions := none }
      = (createResponse false "Invalid username or password" none,
         { users := [usersHeader, adminRow], sessions := none }) :=
  claim_C9_failed_login_no_side_effect "t" "f" 0 "nobody" "pw"
    { users := [usersHeader, adminRow], sessions := none } (by decide)

/-- C6: a login failing on an unknown username and a login failing on a
known username with a wrong password return the same generic failure
response, so the caller cannot tell the two causes apart. -/
theorem claim_C6_uniform_failure_message
    (tu1 fu1 tu2 fu2 : String) (now1 now2 : Nat)
    (u1 p1 u2 p2 : String) (st : AuthState)
    (h1 : ∀ r ∈ st.users.drop 1, r.username ≠ u1)
    (_h2 : ∃ r ∈ st.users.drop 1, r.username = u2)
    (h3 : ∀ r ∈ st.users.drop 1, ¬ (r.username = u2 ∧ r.password = p2)) :
    (handleLogin tu1 fu1 now1 (some u1) (some p1) st).1.message
      = (handleLogin tu2 fu2 now2 (some u2) (some p2) st).1.message
    ∧ (handleLogin tu1 fu1 now1 (some u1) (some p1) st).1.success = false
    ∧ (handleLogin tu2 fu2 now2 (some u2) (some p2) st).1.success = false := by
  have hf1 : findMatch (some u1) (some p1) st.users = none :=
    findMatch_eq_none u1 p1 st.users (fun r hr hc => h1 r hr hc.1)
  have hf2 : findMatch (some u2) (some p2) st.users = none :=
    findMatch_eq_none u2 p2 st.users h3
  simp [handleLogin, hf1, hf2, createResponse]

/-- Witness for C6: unknown user vs. wrong password on the admin row. -/
theorem claim_C6_witness :
    (handleLogin "a" "b" 1 (some "nobody") (some "x")
        { users := [usersHeader, adminRow], sessions := none }).1.message
      = (handleLogin "c" "d" 2 (some "admin") (some "wrong")
        { users := [usersHeader, adminRow], sessions := none }).1.message :=
  (claim_C6_uniform_failure_message "a" "b" "c" "d" 1 2 "nobody" "x"
      "admin" "wrong" { users := [usersHeader, adminRow], sessions := none }
      (by decide) (by decide) (by decide)).1

/-- C8: `doPost` dispatches on the action field to exactly one of the
three handlers, a parse failure or an unknown action yields a failure
envelope, and every response is the uniform envelope built by
`createResponse`. -/
theorem claim_C8_dispatch (tu fu : String) (now : Nat) (st : AuthState) :
    (∀ e, doPost tu fu now (Except.error e) st
        = (createResponse false ("Server error: " ++ e) none, st))
    ∧ (∀ req : Request, req.action = some "login" →
        doPost tu fu now (Except.ok req) st
          = handleLogin tu fu now req.username req.password st)
    ∧ (∀ req : Request, req.action = some "logout" →
        doPost tu fu now (Except.ok req) st
          = handleLogout req.sessionToken st)
    ∧ (∀ req : Request, req.action = some "validateSession" →
        doPost tu fu now (Except.ok req) st
          = (handleValidateSession now req.sessionToken st, st))
    ∧ (∀ req : Request, req.action ≠ some "login" →
        req.action ≠ some "logout" → req.action ≠ some "validateSession" →
        doPost tu fu now (Except.ok req) st
          = (createResponse false "Invalid action" none, st)) := by
  refine ⟨fun e => rfl, ?_, ?_, ?_, ?_⟩
  · intro req h
    cases req with
    | mk action username password sessionToken =>
      simp only at h
      subst h
      rfl
  · intro req h
    cases req with
    | mk action username password sessionToken =>
      simp only at h
      subst h
      rfl
  · intro req h
    cases req with
    | mk action username password sessionToken =>
      simp only at h
      subst h
      rfl
  · intro req h1 h2 h3
    have b1 : (req.action == some "login") = false := beq_eq_false_iff_ne.mpr h1
    have b2 : (req.action == some "logout") = false := beq_eq_false_iff_ne.mpr h2
    have b3 : (req.action == some "validateSession") = false :=
      beq_eq_false_iff_ne.mpr h3
    simp [doPost, b1, b2, b3]

/-- Witness for C8 on concrete requests of every kind. -/
theorem claim_C8_witness :
    doPost "a" "b" 0
        (Except.ok { action := some "nonsense", username := none,
                     password := none, sessionToken := none }) demoState
      = (createResponse false "Invalid action" none, demoState)
    ∧ doPost "a" "b" 0
          (Except.ok { action := some "logout", username := none,
                       password := none, sessionToken := some "tk" }) demoState
        = handleLogout (some "tk") demoState :=
  ⟨(claim_C8_dispatch "a" "b" 0 demoState).2.2.2.2
      { action := some "nonsense", username := none,
        password := none, sessionToken := none }
      (by decide) (by decide) (by decide),
   (claim_C8_dispatch "a" "b" 0 demoState).2.2.1
      { action := some "logout", username := none,
        password := none, sessionToken := some "tk" } rfl⟩

/-- C1: login scans the user table row-by-row; the first row matching
both fields exactly wins and yields success, a non-empty token and a
user object built from that stored row. -/
theorem claim_C1_login_first_match (tu fu : String) (now : Nat)
    (u p : String) (st : AuthState) (k : Nat) (row : URow)
    (hk : (st.users.drop 1)[k]? = some row)
    (hu : row.username = u) (hp : row.password = p)
    (hfirst : ∀ j r, j < k → (st.users.drop 1)[j]? = some r →
        ¬ (r.username = u ∧ r.password = p)) :
    (handleLogin tu fu now (some u) (some p) st).1.success = true
    ∧ (handleLogin tu fu now (some u) (some p) st).1.message = "Login successful"
    ∧ (handleLogin tu fu now (some u) (some p) st).1.sessionToken
        = some (generateSessionToken tu now)
    ∧ generateSessionToken tu now ≠ ""
    ∧ (handleLogin tu fu now (some u) (some p) st).1.user = some (mkUser fu row)
    ∧ (mkUser fu row).username = row.username
    ∧ (mkUser fu row).email = row.email
    ∧ (mkUser fu row).role = row.role
    ∧ (row.userId ≠ "" → (mkUser fu row).id = row.userId)
    ∧ (row.chapterId ≠ "" → (mkUser fu row).chapterId = some row.chapterId) := by
  have hpx : loginMatches (some u) (some p) row = true := by
    simp [loginMatches, hu, hp]
  have hfind : findMatch (some u) (some p) st.users = some row := by
    refine find?_eq_of_first _ (st.users.drop 1) k row hk hpx ?_
    intro j y hj hy
    have hnot := hfirst j y hj hy
    cases hcase : loginMatches (some u) (some p) y with
    | false => rfl
    | true => exact absurd (by simpa [loginMatches] using hcase) hnot
  have htok : generateSessionToken tu now ≠ "" := by
    intro hcon
    have hlen := congrArg String.length hcon
    rw [generateSessionToken, String.length_append, String.length_append] at hlen
    have h1 : "_".length = 1 := rfl
    have h0 : "".length = 0 := rfl
    rw [h1, h0] at hlen
    omega
  have hresp :
      handleLogin tu fu now (some u) (some p) st
        = (createResponse true "Login successful"
             (some { user := some (mkUser fu row),
                     sessionToken := some (generateSessionToken tu now) }),
           { st with sessions := some (storeSession now
               (generateSessionToken tu now) (mkUser fu row) st.sessions) }) := by
    simp [handleLogin, hfind]
  rw [hresp]
  refine ⟨rfl, rfl, rfl, htok, rfl, rfl, rfl, rfl, ?_, ?_⟩
  · intro h; simp [mkUser, h]
  · intro h; simp [mkUser, h]

/-- Witness for C1: the admin row matches at data index 0. -/
theorem claim_C1_witness :
    (handleLogin "uuid" "fb" 7 (some "admin") (some "admin123")
        { users := [usersHeader, adminRow], sessions := none }).1.success = true :=
  (claim_C1_login_first_match "uuid" "fb" 7 "admin" "admin123"
      { users := [usersHeader, adminRow], sessions := none } 0 adminRow
      (by decide) rfl rfl
      (fun j _ hj _ => absurd hj (Nat.not_lt_zero j))).1

/-- C2: validating a token fails when no session row carries it or when
the session is expired (`expiresAt < now`, strictly); otherwise it
returns success with the user snapshot embedded in the session row. -/
theorem claim_C2_validate_session (now : Nat) (tok : String) (st : AuthState) :
    (getSession (some tok) st.sessions = none →
      (handleValidateSession now (some tok) st).success = false)
    ∧ (∀ rows, st.sessions = some rows →
        (∀ r ∈ rows.drop 1, r.token ≠ tok) →
        (handleValidateSession now (some tok) st).success = false)
    ∧ (∀ s, getSession (some tok) st.sessions = some s →
        isSessionExpired now s = true →
        (handleValidateSession now (some tok) st).success = false)
    ∧ (∀ s v, getSession (some tok) st.sessions = some s →
        isSessionExpired now s = false → s.userData = UserDataCell.user v →
        handleValidateSession now (some tok) st
          = createResponse true "Session valid"
              (some { user := some v, sessionToken := none }))
    ∧ (∀ s t, s.expiresAt = DateCell.time t →
        (isSessionExpired now s = true ↔ t < now)) := by
  refine ⟨?_, ?_, ?_, ?_, ?_⟩
  · intro h
    simp [handleValidateSession, h, createResponse]
  · intro rows hrows hnone
    have hg : getSession (some tok) st.sessions = none := by
      rw [hrows]
      simp only [getSession]
      rw [List.find?_eq_none]
      intro r hr
      simpa using hnone r hr
    simp [handleValidateSession, hg, createResponse]
  · intro s hs hexp
    simp [handleValidateSession, hs, hexp, createResponse]
  · intro s v hs hexp hv
    simp [handleValidateSession, hs, hexp, hv]
  · intro s t ht
    simp [isSessionExpired, dateLt, ht]

/-- Witness for C2: the demo session is valid at time 3, expired at
time 10, and an unknown token never validates. -/
theorem claim_C2_witness :
    (handleValidateSession 10 (some "tk") demoState).success = false
    ∧ handleValidateSession 3 (some "tk") demoState
        = createResponse true "Session valid"
            (some { user := some demoUser, sessionToken := none })
    ∧ (handleValidateSession 10 (some "zz") demoState).success = false :=
  ⟨(claim_C2_validate_session 10 "tk" demoState).2.2.1 demoSessionRow
      (by decide) (by decide),
   (claim_C2_validate_session 3 "tk" demoState).2.2.2.1 demoSessionRow demoUser
      (by decide) (by decide) (by decide),
   (claim_C2_validate_session 10 "zz" demoState).1 (by decide)⟩

/-- After the logout scan deleted the first matching row, no further row
matches, provided the token occurred in at most one data row. -/
theorem deleteFirstTokenGo_no_match (tok : Option String) :
    ∀ d : List SRow,
      (d.filter (fun r => some r.token == tok)).length ≤ 1 →
      (deleteFirstTokenGo tok d).find? (fun r => some r.token == tok) = none := by
  intro d
  induction d with
  | nil => intro _; rfl
  | cons r rest ih =>
    intro hlen
    by_cases hr : (some r.token == tok) = true
    · have hfil : (r :: rest).filter (fun r => some r.token == tok)
          = r :: rest.filter (fun r => some r.token == tok) := by
        simp [List.filter_cons, hr]
      rw [hfil, List.length_cons] at hlen
      have hnil : rest.filter (fun r => some r.token == tok) = [] :=
        List.length_eq_zero.mp (by omega)
      have hgo : deleteFirstTokenGo tok (r :: rest) = rest := by
        simp [deleteFirstTokenGo, hr]
      rw [hgo, List.find?_eq_none]
      intro x hx
      simpa using List.filter_eq_nil_iff.mp hnil x hx
    · have hr2 : (some r.token == tok) = false := by simpa using hr
      have hfil : (r :: rest).filter (fun r => some r.token == tok)
          = rest.filter (fun r => some r.token == tok) := by
        simp [List.filter_cons, hr2]
      rw [hfil] at hlen
      have hgo : deleteFirstTokenGo tok (r :: rest)
          = r :: deleteFirstTokenGo tok rest := by
        simp [deleteFirstTokenGo, hr2]
      rw [hgo, List.find?_cons_of_neg _ (by simp [hr2])]
      exact ih hlen

/-- C4 counterexample: with two data rows carrying the same token,
logout deletes only the first, and validating that token immediately
afterwards still succeeds — the claim's "after logout of a token,
validateSession on that token fails" is false as stated. -/
theorem claim_C4_counterexample :
    (handleValidateSession 0 (some "tk")
        (handleLogout (some "tk")
          { users := [usersHeader],
            sessions := some [sessionsHeader,
              demoSessionRow,
              { token := "tk", userData := .user otherUser,
                createdAt := .time 0, expiresAt := .time 5 }] }).2).success
      = true := by decide

/-- C4 amended: logout always reports success (also when the sheet is
absent or the token does not occur), it deletes exactly the first
matching data row, and — provided at most one data row carries the
token — a subsequent validation of that token fails. -/
theorem claim_C4_logout (tok : String) (now : Nat) (st : AuthState)
    (huniq : ∀ rows, st.sessions = some rows →
        ((rows.drop 1).filter (fun r => some r.token == some tok)).length ≤ 1) :
    (handleLogout (some tok) st).1.success = true
    ∧ (handleLogout (some tok) st).1.message = "Logged out successfully"
    ∧ (∀ rows, st.sessions = some rows →
        (handleLogout (some tok) st).2.sessions
          = some (deleteFirstToken (some tok) rows))
    ∧ (st.sessions = none → (handleLogout (some tok) st).2 = st)
    ∧ (handleValidateSession now (some tok)
        (handleLogout (some tok) st).2).success = false := by
  obtain ⟨users, sessions⟩ := st
  cases sessions with
  | none =>
    refine ⟨rfl, rfl, ?_, fun _ => rfl, rfl⟩
    intro rows h
    exact absurd h (by simp)
  | some rows =>
    refine ⟨rfl, rfl, ?_, ?_, ?_⟩
    · intro rows2 h
      have h2 : rows = rows2 := by simpa using h
      subst h2
      rfl
    · intro h
      exact absurd h (by simp)
    · cases rows with
      | nil => rfl
      | cons a data =>
        have hlen := huniq (a :: data) rfl
        have hlen2 : (data.filter (fun r => some r.token == some tok)).length ≤ 1 := by
          simpa using hlen
        have hnone := deleteFirstTokenGo_no_match (some tok) data hlen2
        show (handleValidateSession now (some tok)
            { users := users,
              sessions := some (a :: deleteFirstTokenGo (some tok) data) }).success
          = false
        simp only [handleValidateSession, getSession, List.drop_succ_cons,
                   List.drop_zero]
        rw [hnone]
        rfl

/-- Witness for C4 on the demo state, whose single session row holds
the token. -/
theorem claim_C4_witness :
    (handleLogout (some "tk") demoState).1.success = true
    ∧ (handleValidateSession 3 (some "tk")
        (handleLogout (some "tk") demoState).2).success = false :=
  ⟨(claim_C4_logout "tk" 3 demoState
      (by intro rows h; injection h with h2; subst h2; decide)).1,
   (claim_C4_logout "tk" 3 demoState
      (by intro rows h; injection h with h2; subst h2; decide)).2.2.2.2⟩

/-- C3 counterexample: if a session row already carries exactly the
token that login will generate, the earlier row shadows the new one in
the validation scan, so validating right after a successful login can
return a different user than the login response — the claim is false
for such states. -/
theorem claim_C3_counterexample :
    (handleLogin "uuid" "fb" 0 (some "admin") (some "admin123")
        { users := [usersHeader, adminRow],
          sessions := some [sessionsHeader,
            { token := "uuid_0", userData := .user otherUser,
              createdAt := .time 0, expiresAt := .time 99 }] }).1.success = true
    ∧ (handleLogin "uuid" "fb" 0 (some "admin") (some "admin123")
        { users := [usersHeader, adminRow],
          sessions := some [sessionsHeader,
            { token := "uuid_0", userData := .user otherUser,
              createdAt := .time 0, expiresAt := .time 99 }] }).1.sessionToken
        = some "uuid_0"
    ∧ (handleValidateSession 0 (some "uuid_0")
        (handleLogin "uuid" "fb" 0 (some "admin") (some "admin123")
          { users := [usersHeader, adminRow],
            sessions := some [sessionsHeader,
              { token := "uuid_0", userData := .user otherUser,
                createdAt := .time 0, expiresAt := .time 99 }] }).2).success = true
    ∧ (handleValidateSession 0 (some "uuid_0")
        (handleLogin "uuid" "fb" 0 (some "admin") (some "admin123")
          { users := [usersHeader, adminRow],
            sessions := some [sessionsHeader,
              { token := "uuid_0", userData := .user otherUser,
                createdAt := .time 0, expiresAt := .time 99 }] }).2).user
        ≠ (handleLogin "uuid" "fb" 0 (some "admin") (some "admin123")
            { users := [usersHeader, adminRow],
              sessions := some [sessionsHeader,
                { token := "uuid_0", userData := .user otherUser,
                  createdAt := .time 0, expiresAt := .time 99 }] }).1.user := by
  decide

/-- C3 amended: a token returned by a successful login validates
successfully immediately afterwards, with the same user as the login
response, provided no pre-existing session row already carries the
generated token (the code never checks token collisions) and the
sessions sheet, when present, is non-empty (its header row; `getValues`
on an existing sheet always returns at least one row). -/
theorem claim_C3_login_then_validate (tu fu : String) (now : Nat)
    (u p : String) (st : AuthState) (row : URow)
    (hfind : findMatch (some u) (some p) st.users = some row)
    (hfresh : ∀ rows, st.sessions = some rows →
        ∀ r ∈ rows.drop 1, r.token ≠ generateSessionToken tu now)
    (hne : ∀ rows, st.sessions = some rows → rows ≠ []) :
    (handleLogin tu fu now (some u) (some p) st).1.success = true
    ∧ (handleLogin tu fu now (some u) (some p) st).1.sessionToken
        = some (generateSessionToken tu now)
    ∧ (handleValidateSession now (some (generateSessionToken tu now))
        (handleLogin tu fu now (some u) (some p) st).2).success = true
    ∧ (handleValidateSession now (some (generateSessionToken tu now))
        (handleLogin tu fu now (some u) (some p) st).2).user
        = (handleLogin tu fu now (some u) (some p) st).1.user
    ∧ (handleLogin tu fu now (some u) (some p) st).1.user
        = some (mkUser fu row) := by
  have hdl : dateLt (DateCell.time (now + SESSION_TIMEOUT)) now = false := by
    have h2 : ¬ (now + SESSION_TIMEOUT < now) := by omega
    simp [dateLt, h2]
  have hget : getSession (some (generateSessionToken tu now))
      (some (storeSession now (generateSessionToken tu now) (mkUser fu row)
        st.sessions))
      = some (newSessionRow now (generateSessionToken tu now) (mkUser fu row)) := by
    cases hs : st.sessions with
    | none =>
      rw [storeSession_none_eq]
      simp [getSession, newSessionRow]
    | some rows =>
      cases rows with
      | nil => exact absurd rfl (hne [] hs)
      | cons a data =>
        have hnone : (data.filter (keepRow now)).find?
            (fun r => some r.token == some (generateSessionToken tu now))
            = none := by
          rw [List.find?_eq_none]
          intro x hx
          have hmem : x ∈ data := List.mem_of_mem_filter hx
          have hx2 := hfresh (a :: data) hs x (by simpa using hmem)
          simpa using hx2
        simp only [getSession]
        rw [storeSession_some_eq]
        show ((data.filter (keepRow now))
            ++ [newSessionRow now (generateSessionToken tu now) (mkUser fu row)]).find?
            (fun r => some r.token == some (generateSessionToken tu now))
          = some (newSessionRow now (generateSessionToken tu now) (mkUser fu row))
        rw [List.find?_append, hnone, Option.none_or]
        simp [newSessionRow]
  have hresp :
      handleLogin tu fu now (some u) (some p) st
        = (createResponse true "Login successful"
             (some { user := some (mkUser fu row),
                     sessionToken := some (generateSessionToken tu now) }),
           { st with sessions := some (storeSession now
               (generateSessionToken tu now) (mkUser fu row) st.sessions) }) := by
    simp [handleLogin, hfind]
  rw [hresp]
  refine ⟨rfl, rfl, ?_, ?_, rfl⟩
  · simp [handleValidateSession, hget, isSessionExpired, newSessionRow, hdl,
          createResponse]
  · simp [handleValidateSession, hget, isSessionExpired, newSessionRow, hdl,
          createResponse]

/-- Witness for C3: fresh login on an absent sessions sheet. -/
theorem claim_C3_witness :
    (handleLogin "uuid" "fb" 7 (some "admin") (some "admin123")
        { users := [usersHeader, adminRow], sessions := none }).1.success = true
    ∧ (handleValidateSession 7 (some (generateSessionToken "uuid" 7))
        (handleLogin "uuid" "fb" 7 (some "admin") (some "admin123")
          { users := [usersHeader, adminRow], sessions := none }).2).success
        = true :=
  have h := claim_C3_login_then_validate "uuid" "fb" 7 "admin" "admin123"
      { users := [usersHeader, adminRow], sessions := none } adminRow
      (by decide)
      (by intro rows h; nomatch h)
      (by intro rows h; nomatch h)
  ⟨h.1, h.2.2.1⟩

end GasAuth
